import Mathlib

/-!
Verification of the data router of the broken-cars administrative API
(`src/router/data.js`) against its specification.

The file under `src/` registers four Express handlers (list, create,
update, delete).  Each handler first awaits `validatePage(req.user.roles, bit)`
and then delegates to `brokenCarsController`.  The validator module and the
controller are repository code that is not under `src/`; where a claim
depends on them they are modelled from the specification (their doc
comments say so explicitly).  Everything else is translated from
`src/router/data.js`.
-/

namespace BrokenCars

/-- A JSON-ish value as it appears in Express request objects
(`req.query` values, `req.body` values, `req.params` values). -/
inductive Value
  | null
  | str (s : String)
  | num (n : Int)
  | bool (b : Bool)
deriving DecidableEq, Repr

/-- A record row returned by the persistence layer: an association list of
field names to values. -/
abbrev Row : Type := List (String × Value)

/-- The error taxonomy of the specification (§7): `PermissionDenied`,
`MissingRequiredField`, `InvalidIdentifier`, `InvalidSortColumn`,
`DatabaseError`.  `InvalidPagination` covers the §4.2 requirement that
`limit`/`offset` be validated as non-negative integers (the spec mandates
the validation but does not name the error kind). -/
inductive ApiError
  | PermissionDenied
  | MissingRequiredField (field : String)
  | InvalidIdentifier
  | InvalidSortColumn (column : String)
  | InvalidPagination
  | DatabaseError (code : String)
deriving DecidableEq, Repr

/-- What can escape a handler: a structured error of the defined taxonomy,
or the raw JavaScript `TypeError` thrown when `req.user.roles` is
dereferenced while `req.user` is undefined. -/
inductive HError
  | api (e : ApiError)
  | jsTypeError
deriving DecidableEq, Repr

/-- Sort direction of one sort key. -/
inductive SortDir
  | asc
  | desc
deriving DecidableEq, Repr

/-- The passive query plan of §4.2: equality predicates, ordered sort keys,
limit and offset. -/
structure QueryDescription where
  predicates : List (String × Value)
  sortKeys : List (String × SortDir)
  limit : Int
  offset : Int
deriving DecidableEq, Repr

/-- An invocation of one of the four `brokenCarsController` methods, with
the argument object the router passed (`req.query`, `req.body`,
`\x7b...req.params, ...req.body\x7d`, `req.params` respectively). -/
inductive CtrlOp
  | getData (query : List (String × Value))
  | createData (body : List (String × Value))
  | updateData (payload : List (String × Value))
  | deleteData (params : List (String × Value))
deriving DecidableEq, Repr

/-- An execution against the underlying data store. -/
inductive DbCall
  | query (qd : QueryDescription)
  | insert (fields : Row)
  | update (id : Int) (fields : Row)
  | delete (id : Int)
deriving DecidableEq, Repr

/-- Observable events of one request: controller invocations made by the
router, and store executions made by the controller. -/
inductive Event
  | ctrlCall (op : CtrlOp)
  | dbExec (c : DbCall)
deriving DecidableEq, Repr

/-- The caller identity the authentication middleware attaches to a
request: a role bitmask (`req.user.roles`). -/
structure UserCtx where
  roles : Nat
deriving DecidableEq, Repr

/-- An inbound request as the handlers see it: `req.user` (absent when the
authentication middleware did not run), `req.params`, `req.query`,
`req.body`. -/
structure Request where
  user : Option UserCtx
  params : List (String × Value)
  query : List (String × Value)
  body : List (String × Value)

/-- The data-access collaborator `brokenCarsController` as the router sees
it: each method returns a result together with the store executions it
performed. -/
structure Controller where
  getData : List (String × Value) → Except ApiError (List Row) × List Event
  createData : List (String × Value) → Except ApiError Int × List Event
  updateData : List (String × Value) → Except ApiError Row × List Event
  deleteData : List (String × Value) → Except ApiError Unit × List Event

/-- A handler's successful outcome, one per route:
`res.sendSuccess(\x7bdata\x7d)`, `res.sendSuccess(\x7bnewBrokenCarId\x7d)`,
`res.sendSuccess(\x7bdata\x7d)`, `res.sendSuccess()`. -/
inductive Outcome
  | dataList (rows : List Row)
  | created (newBrokenCarId : Int)
  | updated (row : Row)
  | deleted
deriving DecidableEq, Repr

/-- Modelled from the spec: `validatePage` is imported from
`src/modules/validator`, which is not under `src/`.  Per §4.1 the check
passes iff `(roleBitmask & requiredBit) != 0` and otherwise fails with
`PermissionDenied`; it has no side effects. -/
def validatePage (roleBitmask requiredBit : Nat) : Except ApiError Unit :=
  if roleBitmask &&& requiredBit ≠ 0 then .ok () else .error .PermissionDenied

/-- The JavaScript object spread `\x7b...a, ...b\x7d`: keys of `b` override
keys of `a`; keys of `a` not present in `b` are kept. -/
def spread2 (a b : List (String × Value)) : List (String × Value) :=
  a.filter (fun p => (b.lookup p.1).isNone) ++ b

/-- Shared tail of every handler after the permission check passed: invoke
the controller, record the invocation event followed by the controller's
own events, and wrap a success via `res.sendSuccess` or let the
controller's rejection propagate out of the handler (the handlers in
`src/router/data.js` have no try/catch). -/
def runCtrl {α : Type} (op : CtrlOp) (r : Except ApiError α × List Event)
    (wrap : α → Outcome) : Except HError Outcome × List Event :=
  (match r.1 with
   | .error e => .error (.api e)
   | .ok a => .ok (wrap a),
   Event.ctrlCall op :: r.2)

/-- `router.get('/list')` from `src/router/data.js` lines 74-80:
evaluate `req.user.roles` (throws `TypeError` when `req.user` is absent),
await `validatePage(roles, 1)`, then
`brokenCarsController.getData(req.query)` and `res.sendSuccess(\x7bdata\x7d)`. -/
def listHandler (ctrl : Controller) (req : Request) :
    Except HError Outcome × List Event :=
  match req.user with
  | none => (.error .jsTypeError, [])
  | some u =>
    match validatePage u.roles 1 with
    | .error e => (.error (.api e), [])
    | .ok _ => runCtrl (.getData req.query) (ctrl.getData req.query) .dataList

/-- `router.post('/create')` from `src/router/data.js` lines 125-131:
`req.user.roles`, `validatePage(roles, 2)`, then
`brokenCarsController.createData(req.body)` and
`res.sendSuccess(\x7bnewBrokenCarId\x7d)`. -/
def createHandler (ctrl : Controller) (req : Request) :
    Except HError Outcome × List Event :=
  match req.user with
  | none => (.error .jsTypeError, [])
  | some u =>
    match validatePage u.roles 2 with
    | .error e => (.error (.api e), [])
    | .ok _ => runCtrl (.createData req.body) (ctrl.createData req.body) .created

/-- `router.put('/edit/:id')` from `src/router/data.js` lines 163-169:
`req.user.roles`, `validatePage(roles, 4)`, then
`brokenCarsController.updateData(\x7b...req.params, ...req.body\x7d)` and
`res.sendSuccess(\x7bdata\x7d)`. -/
def updateHandler (ctrl : Controller) (req : Request) :
    Except HError Outcome × List Event :=
  match req.user with
  | none => (.error .jsTypeError, [])
  | some u =>
    match validatePage u.roles 4 with
    | .error e => (.error (.api e), [])
    | .ok _ =>
      runCtrl (.updateData (spread2 req.params req.body))
        (ctrl.updateData (spread2 req.params req.body)) .updated

/-- `router.delete('/delete/:id')` from `src/router/data.js` lines 184-190:
`req.user.roles`, `validatePage(roles, 8)`, then
`brokenCarsController.deleteData(req.params)` and `res.sendSuccess()`. -/
def deleteHandler (ctrl : Controller) (req : Request) :
    Except HError Outcome × List Event :=
  match req.user with
  | none => (.error .jsTypeError, [])
  | some u =>
    match validatePage u.roles 8 with
    | .error e => (.error (.api e), [])
    | .ok _ =>
      runCtrl (.deleteData req.params) (ctrl.deleteData req.params)
        (fun _ => .deleted)

/-- The BrokenCarRecord fields recognized as filter and sort columns
(§4.2): color, description, year, price, firstBrokenDate, createdDate,
bodyId, modelId, bodyName, modelName. -/
def recordFields : List String :=
  ["color", "description", "year", "price", "firstBrokenDate",
   "createdDate", "bodyId", "modelId", "bodyName", "modelName"]

/-- Read a value as an integer: numbers directly, strings via decimal
parsing (query and path parameters arrive as strings). -/
def asInt : Value → Option Int
  | .num n => some n
  | .str s => s.toInt?
  | _ => none

/-- Map over a list in the `Except` monad, stopping at the first error. -/
def mapExcept {α β ε : Type} (f : α → Except ε β) : List α → Except ε (List β)
  | [] => .ok []
  | a :: l =>
    match f a with
    | .error e => .error e
    | .ok b =>
      match mapExcept f l with
      | .error e => .error e
      | .ok bs => .ok (b :: bs)

/-- Split a character list at every occurrence of the separator
(the semantics of `String.splitOn` with a one-character separator,
implemented by structural recursion). -/
def splitOnChar (sep : Char) : List Char → List (List Char)
  | [] => [[]]
  | c :: rest =>
    if c = sep then [] :: splitOnChar sep rest
    else
      match splitOnChar sep rest with
      | [] => [[c]]
      | g :: gs => (c :: g) :: gs

/-- Split a string at every occurrence of the separator character. -/
def splitString (sep : Char) (s : String) : List String :=
  (splitOnChar sep s.data).map (fun cs => ⟨cs⟩)

/-- Drop leading and trailing whitespace (the semantics of
`String.trim`). -/
def trimString (s : String) : String :=
  ⟨((s.data.dropWhile Char.isWhitespace).reverse.dropWhile
      Char.isWhitespace).reverse⟩

/-- Lowercase every character (the semantics of `String.toLower`). -/
def lowerString (s : String) : String :=
  ⟨s.data.map Char.toLower⟩

/-- The column name of one `column|direction` entry of the `sortSpec`
string: the part before the first `|`, whitespace-trimmed. -/
def sortColumnOf (entry : String) : String :=
  (splitString '|' (trimString entry)).headD ""

/-- The direction of one `column|direction` entry: case-insensitively
`desc`, anything else (including an omitted direction) defaulting to
`asc`. -/
def sortDirOf (entry : String) : SortDir :=
  match (splitString '|' (trimString entry)).drop 1 with
  | d :: _ => if lowerString d = "desc" then .desc else .asc
  | [] => .asc

/-- Modelled from the spec: one `column|direction` entry of the `sortSpec`
string (§4.2); the sort parsing lives in `brokenCarsController`, which is
not under `src/`.  The direction is case-insensitively `asc` or `desc`
and defaults to `asc` when omitted; a column outside the allow-list fails
with `InvalidSortColumn`. -/
def parseSortEntry (entry : String) : Except ApiError (String × SortDir) :=
  if sortColumnOf entry ∈ recordFields then
    .ok (sortColumnOf entry, sortDirOf entry)
  else .error (.InvalidSortColumn (sortColumnOf entry))

/-- Modelled from the spec: the full `sortSpec` parse (§4.2), a
comma-separated list of `column|direction` pairs kept in left-to-right
priority order. -/
def parseSortSpec (s : String) : Except ApiError (List (String × SortDir)) :=
  mapExcept parseSortEntry (splitString ',' s)

/-- Modelled from the spec: read an optional non-negative integer
pagination parameter (§4.2: `limit` defaults to 20, `offset` to 0, both
validated as non-negative integers). -/
def getNonNeg (q : List (String × Value)) (key : String) (dflt : Int) :
    Except ApiError Int :=
  match q.lookup key with
  | none => .ok dflt
  | some v =>
    match asInt v with
    | some n => if 0 ≤ n then .ok n else .error .InvalidPagination
    | none => .error .InvalidPagination

/-- Modelled from the spec: `buildListQuery` (§4.2) — the list-query
construction inside `brokenCarsController.getData`, which is not under
`src/`.  Sort columns are validated against the allow-list first; every
recognized filter key present and non-null becomes an equality predicate;
`limit` defaults to 20 and `offset` to 0. -/
def buildListQuery (q : List (String × Value)) :
    Except ApiError QueryDescription :=
  match (match q.lookup "sort" with
         | some (.str s) => parseSortSpec s
         | _ => .ok []) with
  | .error e => .error e
  | .ok sk =>
    match getNonNeg q "limit" 20 with
    | .error e => .error e
    | .ok lim =>
      match getNonNeg q "offset" 0 with
      | .error e => .error e
      | .ok off =>
        .ok { predicates :=
                recordFields.filterMap (fun k =>
                  match q.lookup k with
                  | some v => if v = .null then none else some (k, v)
                  | none => none),
              sortKeys := sk, limit := lim, offset := off }

/-- The fields required on creation (§4.3): color, description, year,
bodyId, modelId. -/
def requiredCreateFields : List String :=
  ["color", "description", "year", "bodyId", "modelId"]

/-- All fields accepted on creation: the required ones plus the optional
price and firstBrokenDate. -/
def createFields : List String :=
  ["color", "description", "year", "price", "firstBrokenDate",
   "bodyId", "modelId"]

/-- Modelled from the spec: `buildCreatePayload` (§4.3) — the create-body
validation inside `brokenCarsController.createData`, which is not under
`src/`.  A missing required field fails with `MissingRequiredField`
naming it; price and firstBrokenDate may be absent. -/
def buildCreatePayload (b : List (String × Value)) :
    Except ApiError (List (String × Value)) :=
  match requiredCreateFields.find? (fun k => (b.lookup k).isNone) with
  | some k => .error (.MissingRequiredField k)
  | none =>
    .ok (createFields.filterMap (fun k => (b.lookup k).map (fun v => (k, v))))

/-- The mutable fields an update may touch (the edit route's documented
body fields): identifier and createdDate are immutable. -/
def mutableFields : List String :=
  ["color", "description", "year", "price", "firstBrokenDate",
   "bodyId", "modelId"]

/-- Read a positive integer identifier from a value, as required for
update and delete keys (§4.3). -/
def parsePositiveId (v : Value) : Except ApiError Int :=
  match asInt v with
  | some n => if 0 < n then .ok n else .error .InvalidIdentifier
  | none => .error .InvalidIdentifier

/-- Modelled from the spec: `buildUpdatePayload` (§4.3) — inside
`brokenCarsController.updateData`, which is not under `src/`.  It splits
the merged object into the addressed identifier and the change set of
mutable fields actually present; a missing or non-positive identifier
fails with `InvalidIdentifier`. -/
def buildUpdatePayload (m : List (String × Value)) :
    Except ApiError (Int × List (String × Value)) :=
  match m.lookup "id" with
  | none => .error .InvalidIdentifier
  | some v =>
    match parsePositiveId v with
    | .error e => .error e
    | .ok n =>
      .ok (n, mutableFields.filterMap (fun k =>
                (m.lookup k).map (fun w => (k, w))))

/-- Modelled from the spec: `buildDeleteKey` (§4.3) — inside
`brokenCarsController.deleteData`, which is not under `src/`.  Delete
requires only a valid positive integer identifier. -/
def buildDeleteKey (p : List (String × Value)) : Except ApiError Int :=
  match p.lookup "id" with
  | none => .error .InvalidIdentifier
  | some v => parsePositiveId v

/-- The opaque data store beneath the controller; each operation may fail
with an underlying error code (wrapped into `DatabaseError`). -/
structure Db where
  runQuery : QueryDescription → Except String (List Row)
  runInsert : List (String × Value) → Except String Int
  runUpdate : Int → List (String × Value) → Except String Row
  runDelete : Int → Except String Unit

/-- Modelled from the spec: `brokenCarsController` itself is not under
`src/`.  Per §4.2/§4.3/§7 each method validates and builds its query or
payload synchronously, before any store execution, and wraps store errors
into `DatabaseError`; validation failures perform no store execution. -/
def implController (db : Db) : Controller where
  getData q :=
    match buildListQuery q with
    | .error e => (.error e, [])
    | .ok qd =>
      match db.runQuery qd with
      | .error c => (.error (.DatabaseError c), [.dbExec (.query qd)])
      | .ok rows => (.ok rows, [.dbExec (.query qd)])
  createData b :=
    match buildCreatePayload b with
    | .error e => (.error e, [])
    | .ok p =>
      match db.runInsert p with
      | .error c => (.error (.DatabaseError c), [.dbExec (.insert p)])
      | .ok i => (.ok i, [.dbExec (.insert p)])
  updateData m :=
    match buildUpdatePayload m with
    | .error e => (.error e, [])
    | .ok ip =>
      match db.runUpdate ip.1 ip.2 with
      | .error c => (.error (.DatabaseError c), [.dbExec (.update ip.1 ip.2)])
      | .ok r => (.ok r, [.dbExec (.update ip.1 ip.2)])
  deleteData ps :=
    match buildDeleteKey ps with
    | .error e => (.error e, [])
    | .ok i =>
      match db.runDelete i with
      | .error c => (.error (.DatabaseError c), [.dbExec (.delete i)])
      | .ok _ => (.ok (), [.dbExec (.delete i)])

/-- The uniform response envelope (§6): `\x7bsuccess, data|error\x7d`. -/
structure Envelope where
  success : Bool
  error : Option String
deriving DecidableEq, Repr

/-- A human-readable message for each defined error kind. -/
def errorMessage : ApiError → String
  | .PermissionDenied => "PermissionDenied"
  | .MissingRequiredField f => "MissingRequiredField: " ++ f
  | .InvalidIdentifier => "InvalidIdentifier"
  | .InvalidSortColumn c => "InvalidSortColumn: " ++ c
  | .InvalidPagination => "InvalidPagination"
  | .DatabaseError c => "DB error. Code: " ++ c

/-- Modelled from the spec: the response boundary that wraps every handler
outcome into the uniform envelope (§6/§7) lives outside `src/` (the
middleware installing `res.sendSuccess` and the error boundary).  A
structured failure of the defined taxonomy maps to a `success:false`
envelope; a raw JavaScript `TypeError` has no defined mapping at this
core's boundary and escapes unstructured (`none`). -/
def toEnvelope : Except HError Outcome → Option Envelope
  | .ok _ => some { success := true, error := none }
  | .error (.api e) => some { success := false, error := some (errorMessage e) }
  | .error .jsTypeError => none

/-! ### Helper lemmas about association-list lookup and the object spread -/

lemma lookup_append_of_none :
    ∀ (l₁ l₂ : List (String × Value)) (k : String),
      l₁.lookup k = none → (l₁ ++ l₂).lookup k = l₂.lookup k
  | [], _, _, _ => rfl
  | (a, v) :: l₁, l₂, k, h => by
    by_cases hk : k = a
    · subst hk; simp [List.lookup] at h
    · have hb : (k == a) = false := beq_eq_false_iff_ne.mpr hk
      simp only [List.lookup, hb] at h
      simp only [List.cons_append, List.lookup, hb]
      exact lookup_append_of_none l₁ l₂ k h

lemma lookup_filter_spread_none (b : List (String × Value)) (k : String)
    (v : Value) (h : b.lookup k = some v) :
    ∀ a : List (String × Value),
      (a.filter (fun p => (b.lookup p.1).isNone)).lookup k = none
  | [] => rfl
  | (x, w) :: a => by
    by_cases hk : k = x
    · subst hk
      have hknone : (b.lookup k).isNone = false := by simp [h]
      simp only [List.filter_cons, hknone, if_neg (Bool.false_ne_true)]
      exact lookup_filter_spread_none b k v h a
    · have hb : (k == x) = false := beq_eq_false_iff_ne.mpr hk
      cases hfx : (b.lookup x).isNone with
      | false =>
        simp only [List.filter_cons, hfx, if_neg (Bool.false_ne_true)]
        exact lookup_filter_spread_none b k v h a
      | true =>
        simp only [List.filter_cons, hfx, if_pos rfl, List.lookup, hb]
        exact lookup_filter_spread_none b k v h a

lemma lookup_filter_none_of_none (f : String × Value → Bool) (k : String) :
    ∀ a : List (String × Value),
      a.lookup k = none → (a.filter f).lookup k = none
  | [], _ => rfl
  | (x, w) :: a, h => by
    by_cases hk : k = x
    · subst hk; simp [List.lookup] at h
    · have hb : (k == x) = false := beq_eq_false_iff_ne.mpr hk
      simp only [List.lookup, hb] at h
      cases hfx : f (x, w) with
      | true =>
        simp only [List.filter_cons, hfx, if_pos rfl, List.lookup, hb]
        exact lookup_filter_none_of_none f k a h
      | false =>
        simp only [List.filter_cons, hfx, if_neg (Bool.false_ne_true)]
        exact lookup_filter_none_of_none f k a h

/-- A key present in the right operand of the spread resolves to the
right operand's value (the later spread wins in JavaScript). -/
lemma lookup_spread_of_right (a b : List (String × Value)) (k : String)
    (v : Value) (h : b.lookup k = some v) :
    (spread2 a b).lookup k = some v := by
  unfold spread2
  rw [lookup_append_of_none _ _ _ (lookup_filter_spread_none b k v h a)]
  exact h

/-- A key absent from the left operand of the spread resolves exactly as
in the right operand. -/
lemma lookup_spread_of_left_none (a b : List (String × Value)) (k : String)
    (h : a.lookup k = none) : (spread2 a b).lookup k = b.lookup k := by
  unfold spread2
  exact lookup_append_of_none _ _ _ (lookup_filter_none_of_none _ _ a h)

/-- On the merged object `\x7b...params, ...body\x7d` with
`params = [(id, idv)]`, every key other than `id` resolves exactly as in
the body. -/
lemma lookup_spread_id (idv : Value) (b : List (String × Value))
    (k : String) (hk : k ≠ "id") :
    (spread2 [("id", idv)] b).lookup k = b.lookup k := by
  apply lookup_spread_of_left_none
  have hb : (k == "id") = false := beq_eq_false_iff_ne.mpr hk
  simp [List.lookup, hb]

/-! ### Helper lemmas about the sort-specification parse -/

lemma parseSortSpec_error_of_bad :
    ∀ l : List String, (∃ e ∈ l, sortColumnOf e ∉ recordFields) →
      ∃ c, mapExcept parseSortEntry l = .error (.InvalidSortColumn c) ∧
        c ∉ recordFields
  | [], h => absurd h (by simp)
  | e :: l, h => by
    by_cases hc : sortColumnOf e ∈ recordFields
    · obtain ⟨x, hx, hxc⟩ := h
      rcases List.mem_cons.mp hx with hxe | hxl
      · subst hxe; exact absurd hc hxc
      · obtain ⟨c, hEq, hNot⟩ := parseSortSpec_error_of_bad l ⟨x, hxl, hxc⟩
        refine ⟨c, ?_, hNot⟩
        have he : parseSortEntry e = .ok (sortColumnOf e, sortDirOf e) := by
          simp [parseSortEntry, hc]
        simp [mapExcept, he, hEq]
    · refine ⟨sortColumnOf e, ?_, hc⟩
      have he : parseSortEntry e =
          .error (.InvalidSortColumn (sortColumnOf e)) := by
        simp [parseSortEntry, hc]
      simp [mapExcept, he]

/-- A `sortSpec` string containing an entry whose column is outside the
allow-list makes the query construction fail with `InvalidSortColumn`. -/
lemma buildListQuery_bad_sort (q : List (String × Value)) (s : String)
    (hs : q.lookup "sort" = some (.str s))
    (hbad : ∃ e ∈ splitString ',' s, sortColumnOf e ∉ recordFields) :
    ∃ c, buildListQuery q = .error (.InvalidSortColumn c) ∧
      c ∉ recordFields := by
  obtain ⟨c, hEq, hNot⟩ :=
    parseSortSpec_error_of_bad (splitString ',' s) hbad
  refine ⟨c, ?_, hNot⟩
  unfold buildListQuery
  rw [hs]
  simp [parseSortSpec] at hEq ⊢
  rw [hEq]

/-! ### Concrete fixtures used to instantiate the theorems -/

/-- A store on which every operation succeeds trivially. -/
def trivialDb : Db where
  runQuery _ := .ok []
  runInsert _ := .ok 1
  runUpdate _ _ := .ok []
  runDelete _ := .ok ()

/-- The controller over the trivial store. -/
def ctrlFix : Controller := implController trivialDb

/-- A request on which the authentication middleware did not run. -/
def reqNoUser : Request := { user := none, params := [], query := [], body := [] }

/-! ### Claim theorems -/

/-- C1: for every operation (list, create, update, delete) and every
controller behavior, when the permission check fails the handler returns
`PermissionDenied` and the event trace is empty: the persistence
collaborator is never invoked.  Since each handler is the sequential
composition `validatePage` then controller call, authorization strictly
precedes and short-circuits data access. -/
theorem auth_denied_short_circuits_data_access (ctrl : Controller)
    (ps q b : List (String × Value)) (u : UserCtx) :
    (u.roles &&& 1 = 0 → listHandler ctrl ⟨some u, ps, q, b⟩ =
      (.error (.api .PermissionDenied), [])) ∧
    (u.roles &&& 2 = 0 → createHandler ctrl ⟨some u, ps, q, b⟩ =
      (.error (.api .PermissionDenied), [])) ∧
    (u.roles &&& 4 = 0 → updateHandler ctrl ⟨some u, ps, q, b⟩ =
      (.error (.api .PermissionDenied), [])) ∧
    (u.roles &&& 8 = 0 → deleteHandler ctrl ⟨some u, ps, q, b⟩ =
      (.error (.api .PermissionDenied), [])) := by
  refine ⟨fun h => ?_, fun h => ?_, fun h => ?_, fun h => ?_⟩
  · have hv : validatePage u.roles 1 = .error .PermissionDenied := by
      unfold validatePage; rw [if_neg (not_not_intro h)]
    simp [listHandler, hv]
  · have hv : validatePage u.roles 2 = .error .PermissionDenied := by
      unfold validatePage; rw [if_neg (not_not_intro h)]
    simp [createHandler, hv]
  · have hv : validatePage u.roles 4 = .error .PermissionDenied := by
      unfold validatePage; rw [if_neg (not_not_intro h)]
    simp [updateHandler, hv]
  · have hv : validatePage u.roles 8 = .error .PermissionDenied := by
      unfold validatePage; rw [if_neg (not_not_intro h)]
    simp [deleteHandler, hv]

/-- Witness for C1 at a concrete denied request: roles bitmask 0 against
the list route. -/
theorem auth_denied_short_circuits_data_access_witness :
    listHandler ctrlFix { user := some ⟨0⟩, params := [], query := [], body := [] } =
      (.error (.api .PermissionDenied), []) :=
  (auth_denied_short_circuits_data_access ctrlFix [] [] [] ⟨0⟩).1 (by decide)

/-- C2: the permission check `validatePage(R, B)` succeeds exactly when
the bitwise AND of the role bitmask and the required bit is nonzero, and
otherwise fails with `PermissionDenied`. -/
theorem validatePage_iff_bitmask (R B : Nat) :
    (validatePage R B = .ok () ↔ R &&& B ≠ 0) ∧
    (validatePage R B = .error .PermissionDenied ↔ R &&& B = 0) := by
  by_cases h : R &&& B = 0 <;> simp [validatePage, h]

/-- C3: each handler checks exactly its designated permission bit — the
controller is reached (the event trace is nonempty) precisely when the
caller's bitmask contains bit 1 for list, 2 for create, 4 for update and
8 for delete. -/
theorem handlers_check_designated_bits (ctrl : Controller)
    (ps q b : List (String × Value)) (u : UserCtx) :
    ((listHandler ctrl ⟨some u, ps, q, b⟩).2 ≠ [] ↔ u.roles &&& 1 ≠ 0) ∧
    ((createHandler ctrl ⟨some u, ps, q, b⟩).2 ≠ [] ↔ u.roles &&& 2 ≠ 0) ∧
    ((updateHandler ctrl ⟨some u, ps, q, b⟩).2 ≠ [] ↔ u.roles &&& 4 ≠ 0) ∧
    ((deleteHandler ctrl ⟨some u, ps, q, b⟩).2 ≠ [] ↔ u.roles &&& 8 ≠ 0) := by
  refine ⟨?_, ?_, ?_, ?_⟩
  · by_cases h : u.roles &&& 1 = 0
    · have hv : validatePage u.roles 1 = .error .PermissionDenied := by
        unfold validatePage; rw [if_neg (not_not_intro h)]
      simp [listHandler, hv, h]
    · have hv : validatePage u.roles 1 = .ok () := by
        unfold validatePage; rw [if_pos h]
      simp [listHandler, hv, runCtrl, h]
      rw [Nat.and_one_is_mod] at h
      omega
  · by_cases h : u.roles &&& 2 = 0
    · have hv : validatePage u.roles 2 = .error .PermissionDenied := by
        unfold validatePage; rw [if_neg (not_not_intro h)]
      simp [createHandler, hv, h]
    · have hv : validatePage u.roles 2 = .ok () := by
        unfold validatePage; rw [if_pos h]
      simp [createHandler, hv, runCtrl, h]
  · by_cases h : u.roles &&& 4 = 0
    · have hv : validatePage u.roles 4 = .error .PermissionDenied := by
        unfold validatePage; rw [if_neg (not_not_intro h)]
      simp [updateHandler, hv, h]
    · have hv : validatePage u.roles 4 = .ok () := by
        unfold validatePage; rw [if_pos h]
      simp [updateHandler, hv, runCtrl, h]
  · by_cases h : u.roles &&& 8 = 0
    · have hv : validatePage u.roles 8 = .error .PermissionDenied := by
        unfold validatePage; rw [if_neg (not_not_intro h)]
      simp [deleteHandler, hv, h]
    · have hv : validatePage u.roles 8 = .ok () := by
        unfold validatePage; rw [if_pos h]
      simp [deleteHandler, hv, runCtrl, h]

/-- Witness for C3: with roles bitmask 1 the list handler reaches the
controller. -/
theorem handlers_check_designated_bits_witness :
    (listHandler ctrlFix { user := some ⟨1⟩, params := [], query := [], body := [] }).2 ≠ [] :=
  ((handlers_check_designated_bits ctrlFix [] [] [] ⟨1⟩).1).mpr (by decide)

/-- C10: when the authentication middleware has not populated `req.user`,
every handler throws on the dereference `req.user.roles` before any
permission decision or data access: the result is the raw `TypeError`
and the event trace is empty. -/
theorem missing_user_throws_typeerror (ctrl : Controller)
    (ps q b : List (String × Value)) :
    listHandler ctrl ⟨none, ps, q, b⟩ = (.error .jsTypeError, []) ∧
    createHandler ctrl ⟨none, ps, q, b⟩ = (.error .jsTypeError, []) ∧
    updateHandler ctrl ⟨none, ps, q, b⟩ = (.error .jsTypeError, []) ∧
    deleteHandler ctrl ⟨none, ps, q, b⟩ = (.error .jsTypeError, []) :=
  ⟨rfl, rfl, rfl, rfl⟩

/-- C4: a sort specification containing a column outside the allow-list
of BrokenCarRecord fields makes the list operation fail with
`InvalidSortColumn` naming a column that is not in the allow-list, with
the controller invoked but no store execution (the event trace carries
the controller call only): unknown columns are never passed through to
the query. -/
theorem unknown_sort_column_rejected_before_db (db : Db) (u : UserCtx)
    (ps q b : List (String × Value)) (s : String)
    (hperm : u.roles &&& 1 ≠ 0)
    (hs : q.lookup "sort" = some (.str s))
    (hbad : ∃ e ∈ splitString ',' s, sortColumnOf e ∉ recordFields) :
    ∃ c, listHandler (implController db) ⟨some u, ps, q, b⟩ =
        (.error (.api (.InvalidSortColumn c)), [.ctrlCall (.getData q)]) ∧
      c ∉ recordFields := by
  obtain ⟨c, hEq, hNot⟩ := buildListQuery_bad_sort q s hs hbad
  refine ⟨c, ?_, hNot⟩
  have hv : validatePage u.roles 1 = .ok () := by
    unfold validatePage; rw [if_pos hperm]
  simp [listHandler, hv, runCtrl, implController, hEq]

/-- Witness for C4: sort specification `model|asc` (the unknown column
`model`) on the list route with bit 1 granted. -/
theorem unknown_sort_column_rejected_before_db_witness :
    ∃ c, listHandler (implController trivialDb)
        ⟨some ⟨1⟩, [], [("sort", .str "model|asc")], []⟩ =
        (.error (.api (.InvalidSortColumn c)),
         [.ctrlCall (.getData [("sort", .str "model|asc")])]) ∧
      c ∉ recordFields :=
  unknown_sort_column_rejected_before_db trivialDb ⟨1⟩ [] [("sort", .str "model|asc")]
    [] "model|asc" (by decide) rfl (by decide)

/-- C5: a create body missing one of the required fields color,
description, year, bodyId, modelId fails with `MissingRequiredField`
naming an absent required field and performs no store execution (the
event trace carries the controller call only); and a body carrying all
required fields passes the payload validation even with price and
firstBrokenDate absent. -/
theorem create_missing_field_short_circuits (db : Db) :
    (∀ (u : UserCtx) (ps q b : List (String × Value)),
      u.roles &&& 2 ≠ 0 →
      (∃ k ∈ requiredCreateFields, b.lookup k = none) →
      ∃ k, k ∈ requiredCreateFields ∧ b.lookup k = none ∧
        createHandler (implController db) ⟨some u, ps, q, b⟩ =
          (.error (.api (.MissingRequiredField k)),
           [.ctrlCall (.createData b)])) ∧
    (∀ b : List (String × Value),
      (∀ k ∈ requiredCreateFields, (b.lookup k).isSome) →
      ∃ p, buildCreatePayload b = .ok p) := by
  constructor
  · intro u ps q b hperm hmiss
    have hsome :
        (requiredCreateFields.find? (fun k => (b.lookup k).isNone)).isSome := by
      rw [List.find?_isSome]
      obtain ⟨k, hk, hkn⟩ := hmiss
      exact ⟨k, hk, by simp [hkn]⟩
    obtain ⟨k0, hk0⟩ := Option.isSome_iff_exists.mp hsome
    have hk0mem := List.mem_of_find?_eq_some hk0
    have hk0none : b.lookup k0 = none := by
      have := List.find?_some hk0
      simpa using this
    refine ⟨k0, hk0mem, hk0none, ?_⟩
    have hbuild : buildCreatePayload b = .error (.MissingRequiredField k0) := by
      unfold buildCreatePayload
      rw [hk0]
    have hv : validatePage u.roles 2 = .ok () := by
      unfold validatePage; rw [if_pos hperm]
    simp [createHandler, hv, runCtrl, implController, hbuild]
  · intro b hall
    have hnone :
        requiredCreateFields.find? (fun k => (b.lookup k).isNone) = none := by
      rw [List.find?_eq_none]
      intro x hx
      have hxs := hall x hx
      cases hlk : b.lookup x with
      | none => rw [hlk] at hxs; simp at hxs
      | some v => simp [hlk]
    exact ⟨_, by unfold buildCreatePayload; rw [hnone]⟩

/-- Witness for C5: create body missing `year` (all other required fields
present) with bit 2 granted. -/
theorem create_missing_field_short_circuits_witness :
    ∃ k, k ∈ requiredCreateFields ∧
      List.lookup k [("color", Value.str "#fff"), ("description", Value.str "d"),
        ("bodyId", Value.num 1), ("modelId", Value.num 2)] = none ∧
      createHandler (implController trivialDb)
        ⟨some ⟨2⟩, [], [],
         [("color", Value.str "#fff"), ("description", Value.str "d"),
          ("bodyId", Value.num 1), ("modelId", Value.num 2)]⟩ =
        (.error (.api (.MissingRequiredField k)),
         [.ctrlCall (.createData
           [("color", Value.str "#fff"), ("description", Value.str "d"),
            ("bodyId", Value.num 1), ("modelId", Value.num 2)])]) :=
  (create_missing_field_short_circuits trivialDb).1 ⟨2⟩ [] []
    [("color", Value.str "#fff"), ("description", Value.str "d"),
     ("bodyId", Value.num 1), ("modelId", Value.num 2)]
    (by decide) (by decide)

/-- C6 counterexample: on a request the authentication middleware never
touched (`req.user` absent), the list handler's outcome is the raw
JavaScript `TypeError`, which has no mapping to a defined error kind and
escapes the boundary unenveloped — so not every failure of every request
is mapped to the uniform envelope. -/
theorem unstructured_typeerror_escapes_boundary :
    (listHandler ctrlFix reqNoUser).1 = .error .jsTypeError ∧
    toEnvelope (listHandler ctrlFix reqNoUser).1 = none :=
  ⟨rfl, rfl⟩

/-- C6 (amended): for every request in which the authentication
middleware has populated `req.user`, and every controller behavior, each
of the four handlers produces an outcome the boundary maps to the
uniform envelope — every failure on such requests is a defined error
kind, and no unstructured error escapes. -/
theorem failures_of_authenticated_requests_enveloped (ctrl : Controller)
    (ps q b : List (String × Value)) (u : UserCtx) :
    (∃ env, toEnvelope (listHandler ctrl ⟨some u, ps, q, b⟩).1 = some env) ∧
    (∃ env, toEnvelope (createHandler ctrl ⟨some u, ps, q, b⟩).1 = some env) ∧
    (∃ env, toEnvelope (updateHandler ctrl ⟨some u, ps, q, b⟩).1 = some env) ∧
    (∃ env, toEnvelope (deleteHandler ctrl ⟨some u, ps, q, b⟩).1 = some env) := by
  have hrc : ∀ {α : Type} (op : CtrlOp) (r : Except ApiError α × List Event)
      (wrap : α → Outcome), ∃ env, toEnvelope (runCtrl op r wrap).1 = some env := by
    intro α op r wrap
    rcases r with ⟨res, evs⟩
    cases res <;> simp [runCtrl, toEnvelope]
  refine ⟨?_, ?_, ?_, ?_⟩
  · cases hv : validatePage u.roles 1 with
    | error e => cases e <;> simp [listHandler, hv, toEnvelope]
    | ok a => simpa [listHandler, hv] using hrc _ _ _
  · cases hv : validatePage u.roles 2 with
    | error e => cases e <;> simp [createHandler, hv, toEnvelope]
    | ok a => simpa [createHandler, hv] using hrc _ _ _
  · cases hv : validatePage u.roles 4 with
    | error e => cases e <;> simp [updateHandler, hv, toEnvelope]
    | ok a => simpa [updateHandler, hv] using hrc _ _ _
  · cases hv : validatePage u.roles 8 with
    | error e => cases e <;> simp [deleteHandler, hv, toEnvelope]
    | ok a => simpa [deleteHandler, hv] using hrc _ _ _

/-- C7: on an update request whose path parameters are exactly the `id`
and whose body is any subset of fields, the object the handler passes to
the controller is the spread of the two, and every key other than `id`
resolves in it exactly as in the body — a field absent from the body is
absent from the change set, never reset to a null or default value. -/
theorem update_change_set_only_body_fields (ctrl : Controller) (u : UserCtx)
    (idv : Value) (q b : List (String × Value)) (k : String)
    (hperm : u.roles &&& 4 ≠ 0) (hk : k ≠ "id") :
    (updateHandler ctrl ⟨some u, [("id", idv)], q, b⟩).2.head? =
      some (.ctrlCall (.updateData (spread2 [("id", idv)] b))) ∧
    (spread2 [("id", idv)] b).lookup k = b.lookup k := by
  constructor
  · have hv : validatePage u.roles 4 = .ok () := by
      unfold validatePage; rw [if_pos hperm]
    simp [updateHandler, hv, runCtrl]
  · exact lookup_spread_id idv b k hk

/-- Witness for C7: body touching only `color`; the key `year` resolves
in the merged object exactly as in the body (absent). -/
theorem update_change_set_only_body_fields_witness :
    (updateHandler ctrlFix
        ⟨some ⟨4⟩, [("id", Value.str "1")], [], [("color", Value.str "#fff")]⟩).2.head? =
      some (.ctrlCall (.updateData
        (spread2 [("id", Value.str "1")] [("color", Value.str "#fff")]))) ∧
    (spread2 [("id", Value.str "1")] [("color", Value.str "#fff")]).lookup "year" =
      List.lookup "year" [("color", Value.str "#fff")] :=
  update_change_set_only_body_fields ctrlFix ⟨4⟩ (Value.str "1") []
    [("color", Value.str "#fff")] "year" (by decide) (by decide)

/-- C8: a list request with every recognized filter key absent, no sort
specification and no pagination parameters builds the query with an
empty predicate list, limit 20, offset 0 and natural sort order, without
error. -/
theorem empty_request_default_query (q : List (String × Value))
    (hf : ∀ k ∈ recordFields, q.lookup k = none)
    (hs : q.lookup "sort" = none) (hl : q.lookup "limit" = none)
    (ho : q.lookup "offset" = none) :
    buildListQuery q = .ok ⟨[], [], 20, 0⟩ := by
  unfold buildListQuery getNonNeg
  rw [hs, hl, ho]
  simp only [Except.ok.injEq, QueryDescription.mk.injEq, and_true, true_and]
  exact List.filterMap_eq_nil_iff.mpr (fun k hk => by rw [hf k hk])

/-- Witness for C8: the empty query map. -/
theorem empty_request_default_query_witness :
    buildListQuery [] = .ok ⟨[], [], 20, 0⟩ :=
  empty_request_default_query [] (by decide) rfl rfl rfl

/-- C9: the update handler passes `\x7b...req.params, ...req.body\x7d`
to the controller with body keys taking precedence: when the body
contains an `id`, the controller receives the body's value for `id`,
whatever `:id` stood in the path. -/
theorem update_body_id_overrides_path_id (ctrl : Controller) (u : UserCtx)
    (pathId v : Value) (q b : List (String × Value))
    (hperm : u.roles &&& 4 ≠ 0) (hid : b.lookup "id" = some v) :
    (updateHandler ctrl ⟨some u, [("id", pathId)], q, b⟩).2.head? =
      some (.ctrlCall (.updateData (spread2 [("id", pathId)] b))) ∧
    (spread2 [("id", pathId)] b).lookup "id" = some v := by
  constructor
  · have hv : validatePage u.roles 4 = .ok () := by
      unfold validatePage; rw [if_pos hperm]
    simp [updateHandler, hv, runCtrl]
  · exact lookup_spread_of_right _ _ _ _ hid

/-- Witness for C9: path id `1`, body id `7` — the controller receives
`7`. -/
theorem update_body_id_overrides_path_id_witness :
    (updateHandler ctrlFix
        ⟨some ⟨4⟩, [("id", Value.str "1")], [], [("id", Value.num 7)]⟩).2.head? =
      some (.ctrlCall (.updateData
        (spread2 [("id", Value.str "1")] [("id", Value.num 7)]))) ∧
    (spread2 [("id", Value.str "1")] [("id", Value.num 7)]).lookup "id" =
      some (Value.num 7) :=
  update_body_id_overrides_path_id ctrlFix ⟨4⟩ (Value.str "1") (Value.num 7)
    [] [("id", Value.num 7)] (by decide) (by decide)

end BrokenCars
